import Mathlib

/-
Shallow embedding of `js-libp2p-evm-bootstrap` (src/src/index.ts).

The module is a libp2p peer-discovery service: an `EVMBootstrap` instance
owns a one-shot timer (`start` / `stop` / `isStarted`), and when the timer
fires the pipeline `_discoverBootstrapPeers` checks the chain id of the
configured ethereum provider, queries a smart contract for peer-identifier
strings, resolves each via peer routing, appends the resolutions to the
instance field `list`, and then for each accumulated entry merges a tag
record into the peer store, emits a `peer` event and requests a connection.

The injected collaborators (ethereum provider, contract, peer routing,
peer store, connection manager) are modelled as an explicit environment
`Env` recording the outcome each collaborator call would have; the
pipeline becomes a pure function from configuration, environment, the
armed state of the timer and the accumulated peer list to a `RunOut`
record of its result, its final list and every observable effect
(registry merges, `peer` events, connection requests, error logs, and
counters for the network query, contract construction and contract
query).  Reads of the mutable `this.timer` field during the per-entry
loop are modelled by `Env.armedAt`, indexed by loop iteration, since
`stop` may clear the field between any two awaits.

Trace/info logging of the source is omitted; only `log.error` calls are
modelled (`ErrorLog`), as those are the observable error surface.
-/

namespace EvmBootstrap

/-- A peer identifier together with its resolved network addresses
(`PeerInfo` of `@libp2p/interface`); peer ids and multiaddrs are modelled
as strings. -/
structure PeerInfo where
  id : String
  multiaddrs : List String
deriving DecidableEq, Repr

/-- Constant `DEFAULT_BOOTSTRAP_TAG_NAME` from src/index.ts. -/
def DEFAULT_BOOTSTRAP_TAG_NAME : String := "evmbootstrap"

/-- Constant `DEFAULT_BOOTSTRAP_TAG_VALUE` from src/index.ts. -/
def DEFAULT_BOOTSTRAP_TAG_VALUE : Int := 50

/-- Constant `DEFAULT_BOOTSTRAP_DISCOVERY_TIMEOUT` from src/index.ts. -/
def DEFAULT_BOOTSTRAP_DISCOVERY_TIMEOUT : Nat := 1000

/-- The validated configuration held in `this._init` (the fields the
pipeline reads; `chainId` is a JS bigint, modelled as `Int`; optional
fields stay optional, defaults are applied at use sites exactly as the
source applies `??`). -/
structure Config where
  contractAddress : String
  contractIndex : String
  chainId : Int
  tagName : Option String
  tagValue : Option Int
  tagTTL : Option Nat
deriving DecidableEq, Repr

/-- One `log.error` call of the pipeline, with the data the source
interpolates into the message:
* `wrongNetwork observed expected` models
  `log.error('Ethereum provider is connected to chainId <observed>, but expected <expected>. ...')`;
* `lookupFailed s cause` models
  `log.error('Could not lookup  multiaddrs for bootstrap peer', s, err)`;
* `couldNotDiscover cause` models
  `log.error('Could not discover bootstrap peers', err)`;
* `dialFailed p cause` models
  `log.error('could not dial bootstrap peer %p', p, err)`. -/
inductive ErrorLog where
  | wrongNetwork (observed expected : Int)
  | lookupFailed (peerIdStr : String) (cause : String)
  | couldNotDiscover (cause : String)
  | dialFailed (peerId : String) (cause : String)
deriving DecidableEq, Repr

/-- One `peerStore.merge(peerData.id, { tags: { [tagName ?? default]:
{ value: tagValue ?? default, ttl: tagTTL } }, multiaddrs:
peerData.multiaddrs })` call, with the arguments the source passes. -/
structure MergeCall where
  peerId : String
  tagName : String
  tagValue : Int
  tagTTL : Option Nat
  multiaddrs : List String
deriving DecidableEq, Repr

/-- Behaviour of the injected collaborators during one pipeline run.
Each field records the outcome the corresponding call would have; calls
that can reject are `Except String` with the error message as payload.
`mergeResult` and `armedAt` are indexed by the iteration of the
tag/announce/connect loop, because `peerStore.merge` is awaited once per
iteration and `this.timer` is re-read once per iteration. -/
structure Env where
  getNetwork : Except String Int
  contractNew : Except String Unit
  getAllPeerIds : String → Except String (List String)
  parsePeerId : String → Except String String
  findPeer : String → Except String PeerInfo
  mergeResult : Nat → Except String Unit
  armedAt : Nat → Bool

/-- How `_discoverBootstrapPeers` terminates from a direct caller's
point of view: `returned` is a normal resolution of the promise,
`raised msg` is a rejection with an error whose message is `msg`. -/
inductive RunResult where
  | returned
  | raised (msg : String)
deriving DecidableEq, Repr

/-- The message of the error thrown on a chain-id mismatch:
`Wrong network: expected chainId <expected>, got <observed>`. -/
def wrongNetworkMsg (expected observed : Int) : String :=
  "Wrong network: expected chainId " ++ toString expected ++ ", got " ++ toString observed

/-- How the `for (const peerData of this.list)` loop ends: it runs off
the end (`completed`), returns early because `this.timer` was found
cleared (`stoppedEarly`), or an awaited `merge` rejected and the error
propagates to the outer catch (`mergeRaised`). -/
inductive LoopExit where
  | completed
  | stoppedEarly
  | mergeRaised (cause : String)
deriving DecidableEq, Repr

/-- Observable outcome of the tag/announce/connect loop. -/
structure LoopOut where
  merges : List MergeCall
  events : List PeerInfo
  connections : List String
  exitKind : LoopExit
deriving DecidableEq, Repr

/-- The merge call the loop body issues for one entry, with the `??`
defaults of the source applied. -/
def mergeCallOf (cfg : Config) (p : PeerInfo) : MergeCall :=
  { peerId := p.id
    tagName := cfg.tagName.getD DEFAULT_BOOTSTRAP_TAG_NAME
    tagValue := cfg.tagValue.getD DEFAULT_BOOTSTRAP_TAG_VALUE
    tagTTL := cfg.tagTTL
    multiaddrs := p.multiaddrs }

/-- The `for (const peerData of this.list)` loop of the pipeline: for
each entry, await `peerStore.merge` (a rejection escapes to the outer
catch), re-check `this.timer` (cleared means return early), then
dispatch the `peer` event and fire `openConnection`.  `k` is the index
of the current iteration in `Env.mergeResult` / `Env.armedAt`. -/
def tagLoop (cfg : Config) (env : Env) : List PeerInfo → Nat → LoopOut
  | [], _ => { merges := [], events := [], connections := [], exitKind := .completed }
  | p :: rest, k =>
    match env.mergeResult k with
    | .error e =>
      { merges := [mergeCallOf cfg p], events := [], connections := []
        exitKind := .mergeRaised e }
    | .ok _ =>
      if env.armedAt k then
        let r := tagLoop cfg env rest (k + 1)
        { merges := mergeCallOf cfg p :: r.merges
          events := p :: r.events
          connections := p.id :: r.connections
          exitKind := r.exitKind }
      else
        { merges := [mergeCallOf cfg p], events := [], connections := []
          exitKind := .stoppedEarly }

/-- Resolution of one identifier string inside the per-identifier
try/catch: `peerIdFromString` then `peerRouting.findPeer`; `none` when
either step throws. -/
def resolveOne (env : Env) (s : String) : Option PeerInfo :=
  match env.parsePeerId s with
  | .error _ => none
  | .ok pid =>
    match env.findPeer pid with
    | .error _ => none
    | .ok info => some info

/-- The `for (const peerIdStr of peerIds)` loop: parse each string and
resolve it via peer routing, appending successes; a failure of either
step is caught, logged with the offending identifier and skipped.
Returns the resolved infos in order and the error logs in order. -/
def resolveIdentifiers (env : Env) : List String → List PeerInfo × List ErrorLog
  | [] => ([], [])
  | s :: rest =>
    let r := resolveIdentifiers env rest
    match env.parsePeerId s with
    | .error e => (r.1, .lookupFailed s e :: r.2)
    | .ok pid =>
      match env.findPeer pid with
      | .error e => (r.1, .lookupFailed s e :: r.2)
      | .ok info => (info :: r.1, r.2)

/-- Everything a run of `_discoverBootstrapPeers` does that the outside
can see: the promise outcome, the final value of `this.list`, how many
times the network was queried, the contract constructed and queried, and
the merge / event / connection / error-log sequences in order. -/
structure RunOut where
  result : RunResult
  list : List PeerInfo
  networkQueries : Nat
  contractConstructions : Nat
  contractQueries : Nat
  merges : List MergeCall
  events : List PeerInfo
  connections : List String
  errorLogs : List ErrorLog
deriving DecidableEq, Repr

/-- Method `_discoverBootstrapPeers` of src/index.ts as a pure function.
`armed` is the value of `this.timer == null` negated at the entry guard;
`list0` is the value of `this.list` at entry (it survives from earlier
runs).  Control flow, in source order: entry guard; `await
ethereum.getNetwork()` (outside any try, so a rejection escapes); the
chain-id comparison, which logs and throws on mismatch; then the single
try/catch around contract construction, `getAllPeerIds`, the
per-identifier resolution loop and the tag/announce/connect loop, whose
catch logs `Could not discover bootstrap peers` and swallows. -/
def discoverBootstrapPeers (cfg : Config) (env : Env) (armed : Bool)
    (list0 : List PeerInfo) : RunOut :=
  if armed = false then
    { result := .returned, list := list0, networkQueries := 0
      contractConstructions := 0, contractQueries := 0
      merges := [], events := [], connections := [], errorLogs := [] }
  else
    match env.getNetwork with
    | .error e =>
      { result := .raised e, list := list0, networkQueries := 1
        contractConstructions := 0, contractQueries := 0
        merges := [], events := [], connections := [], errorLogs := [] }
    | .ok observed =>
      if observed ≠ cfg.chainId then
        { result := .raised (wrongNetworkMsg cfg.chainId observed), list := list0
          networkQueries := 1, contractConstructions := 0, contractQueries := 0
          merges := [], events := [], connections := []
          errorLogs := [.wrongNetwork observed cfg.chainId] }
      else
        match env.contractNew with
        | .error e =>
          { result := .returned, list := list0, networkQueries := 1
            contractConstructions := 1, contractQueries := 0
            merges := [], events := [], connections := []
            errorLogs := [.couldNotDiscover e] }
        | .ok _ =>
          match env.getAllPeerIds cfg.contractIndex with
          | .error e =>
            { result := .returned, list := list0, networkQueries := 1
              contractConstructions := 1, contractQueries := 1
              merges := [], events := [], connections := []
              errorLogs := [.couldNotDiscover e] }
          | .ok peerIds =>
            let r := resolveIdentifiers env peerIds
            let list1 := list0 ++ r.1
            let l := tagLoop cfg env list1 0
            { result := .returned, list := list1, networkQueries := 1
              contractConstructions := 1, contractQueries := 1
              merges := l.merges, events := l.events, connections := l.connections
              errorLogs := r.2 ++
                (match l.exitKind with
                 | .mergeRaised e => [.couldNotDiscover e]
                 | _ => []) }

/-- The continuation attached to the fire-and-forget
`connectionManager.openConnection(...)` call: `.then` traces on success,
`.catch` logs `could not dial bootstrap peer` on failure.  Its only
observable effect is the possible error log; it can never reject the
pipeline, which does not await it. -/
def handleDialOutcome (peerId : String) (outcome : Except String Unit) : List ErrorLog :=
  match outcome with
  | .ok _ => []
  | .error e => [.dialFailed peerId e]

/-- Shape of the `ethereum` option as `toEthersProvider` inspects it:
whether `typeof input.getNetwork === 'function'` and whether
`typeof input.request === 'function'`.  `tag` distinguishes otherwise
identical provider objects. -/
structure ProviderShape where
  hasGetNetwork : Bool
  hasRequest : Bool
  tag : Nat
deriving DecidableEq, Repr

/-- Result of provider normalization: the input passed through unchanged
(an ethers `Provider`), or the input wrapped in a `BrowserProvider`. -/
inductive NormalizedProvider where
  | native (p : ProviderShape)
  | wrapped (p : ProviderShape)
deriving DecidableEq, Repr

/-- Function `toEthersProvider` of src/index.ts: a non-null input exposing a
`getNetwork` function is returned as is; otherwise a non-null input with
a `request` function is wrapped in a `BrowserProvider`, but only when a
global `window` is defined; anything else throws.  `windowDefined`
models `typeof window !== 'undefined'`. -/
def toEthersProvider (input : Option ProviderShape) (windowDefined : Bool) :
    Except String NormalizedProvider :=
  match input with
  | some p =>
    if p.hasGetNetwork then .ok (.native p)
    else if windowDefined && p.hasRequest then .ok (.wrapped p)
    else .error "Invalid provider: must be an ethers Provider or EIP-1193 provider"
  | none => .error "Invalid provider: must be an ethers Provider or EIP-1193 provider"

/-- The raw `BootstrapInit` options object as the constructor receives
it: every required field may be null (`Option`), as the constructor's
validation guards against exactly that. -/
structure RawInit where
  contractAddress : Option String
  contractIndex : Option String
  chainId : Option Int
  ethereum : Option ProviderShape
  timeout : Option Nat
  tagName : Option String
  tagValue : Option Int
  tagTTL : Option Nat
deriving DecidableEq, Repr

/-- What a successfully constructed `EVMBootstrap` instance holds of the
options: the validated `_init` configuration, the normalized provider,
the resolved timeout and the initial empty `list`. -/
structure Constructed where
  config : Config
  provider : NormalizedProvider
  timeout : Nat
  list : List PeerInfo
deriving DecidableEq, Repr

/-- The `EVMBootstrap` constructor of src/index.ts: the four null checks
in source order, each throwing its own message, then field
initialization (`timeout ?? 1000`, `list = []`) and the normalization of
`ethereum` by `toEthersProvider` inside the `_init` spread.  Performs no
network access: no `Env` is consulted. -/
def constructEVMBootstrap (options : RawInit) (windowDefined : Bool) :
    Except String Constructed :=
  match options.contractAddress with
  | none => .error "EVMBootstrap requires a contract address"
  | some addr =>
    match options.contractIndex with
    | none => .error "EVMBootstrap requires a contract index"
    | some idx =>
      match options.chainId with
      | none => .error "EVMBootstrap requires a chain id"
      | some cid =>
        match options.ethereum with
        | none => .error "EVMBootstrap requires an ethereum provider"
        | some eth =>
          match toEthersProvider (some eth) windowDefined with
          | .error e => .error e
          | .ok prov =>
            .ok { config := { contractAddress := addr, contractIndex := idx
                              chainId := cid, tagName := options.tagName
                              tagValue := options.tagValue, tagTTL := options.tagTTL }
                  provider := prov
                  timeout := options.timeout.getD DEFAULT_BOOTSTRAP_DISCOVERY_TIMEOUT
                  list := [] }

/-- One pending `setTimeout` registration in the host scheduler: the
handle returned to the instance and the absolute time at which the
callback (which invokes the pipeline once) fires. -/
structure SchedEntry where
  handle : Nat
  deadline : Nat
deriving DecidableEq, Repr

/-- The mutable state relevant to `start` / `stop` / `isStarted`:
`this.timer` (a timer handle or undefined), the instance `list`, and the
host scheduler modelled explicitly (fresh-handle counter and pending
one-shot timers). -/
structure InstanceState where
  timer : Option Nat
  list : List PeerInfo
  nextHandle : Nat
  pending : List SchedEntry
deriving DecidableEq, Repr

/-- The state of a freshly constructed instance: no timer, empty list,
empty scheduler. -/
def initialState : InstanceState :=
  { timer := none, list := [], nextHandle := 0, pending := [] }

/-- Method `isStarted()` of src/index.ts: `Boolean(this.timer)`. -/
def isStarted (s : InstanceState) : Bool :=
  s.timer.isSome

/-- Method `start()` of src/index.ts: a no-op when already started, otherwise
`this.timer = setTimeout(..., this.timeout)` — modelled as allocating a
fresh handle and registering a one-shot firing at `now + timeout`. -/
def start (timeout now : Nat) (s : InstanceState) : InstanceState :=
  if isStarted s then s
  else
    { s with timer := some s.nextHandle
             nextHandle := s.nextHandle + 1
             pending := s.pending ++ [{ handle := s.nextHandle, deadline := now + timeout }] }

/-- Method `stop()` of src/index.ts: `clearTimeout(this.timer)` when a handle
is held (removing that registration from the scheduler if still pending;
a no-op if it already fired), then `this.timer = undefined`. -/
def stop (s : InstanceState) : InstanceState :=
  match s.timer with
  | some h =>
    { s with timer := none, pending := s.pending.filter (fun e => e.handle ≠ h) }
  | none => { s with timer := none }

/-- How many pipeline executions the scheduler triggers once simulated
time reaches `t`: one per pending registration whose deadline has
passed (each one-shot callback invokes `_discoverBootstrapPeers`
exactly once). -/
def firingsBy (t : Nat) (s : InstanceState) : Nat :=
  (s.pending.filter (fun e => decide (e.deadline ≤ t))).length

/-- The resolved infos of the per-identifier loop are exactly the
`filterMap` of single-identifier resolution over the identifier list. -/
theorem resolveIdentifiers_fst (env : Env) (ids : List String) :
    (resolveIdentifiers env ids).1 = ids.filterMap (resolveOne env) := by
  induction ids with
  | nil => rfl
  | cons s rest ih =>
    simp only [resolveIdentifiers, List.filterMap_cons, resolveOne]
    cases hp : env.parsePeerId s with
    | error e => simpa [hp] using ih
    | ok pid =>
      cases hf : env.findPeer pid with
      | error e => simpa [hp, hf] using ih
      | ok info => simpa [hp, hf] using ih

/-- An identifier whose resolution fails is logged with the offending
identifier string by the per-identifier loop. -/
theorem resolveIdentifiers_log_of_fail (env : Env) (s : String) (ids : List String)
    (hmem : s ∈ ids) (hfail : resolveOne env s = none) :
    ∃ c, ErrorLog.lookupFailed s c ∈ (resolveIdentifiers env ids).2 := by
  induction ids with
  | nil => cases hmem
  | cons a rest ih =>
    rcases List.mem_cons.mp hmem with h | h
    · subst h
      unfold resolveOne at hfail
      cases hp : env.parsePeerId s with
      | error e => exact ⟨e, by simp [resolveIdentifiers, hp]⟩
      | ok pid =>
        rw [hp] at hfail
        simp only [] at hfail
        cases hf : env.findPeer pid with
        | error e => exact ⟨e, by simp [resolveIdentifiers, hp, hf]⟩
        | ok info => rw [hf] at hfail; simp at hfail
    · obtain ⟨c, hc⟩ := ih h
      refine ⟨c, ?_⟩
      simp only [resolveIdentifiers]
      cases hp : env.parsePeerId a with
      | error e => simp [hc]
      | ok pid =>
        cases hf : env.findPeer pid with
        | error e => simp [hf, hc]
        | ok info => simp [hf, hc]

/-- When every merge succeeds and the timer is observed armed at every
iteration, the tag/announce/connect loop processes every entry in order:
one merge call, one `peer` event and one connection request per entry. -/
theorem tagLoop_all_ok (cfg : Config) (env : Env) :
    ∀ (entries : List PeerInfo) (i : Nat),
    (∀ j, j < entries.length → env.mergeResult (i + j) = .ok () ∧ env.armedAt (i + j) = true) →
    tagLoop cfg env entries i =
      { merges := entries.map (mergeCallOf cfg), events := entries
        connections := entries.map (fun p => p.id), exitKind := .completed } := by
  intro entries
  induction entries with
  | nil => intro i _; rfl
  | cons p rest ih =>
    intro i h
    have h0 := h 0 (by simp)
    rw [Nat.add_zero] at h0
    have hrest : ∀ j, j < rest.length →
        env.mergeResult (i + 1 + j) = .ok () ∧ env.armedAt (i + 1 + j) = true := by
      intro j hj
      have hs := h (j + 1) (by simpa using Nat.succ_lt_succ hj)
      rwa [show i + (j + 1) = i + 1 + j by omega] at hs
    simp [tagLoop, h0.1, h0.2, ih (i + 1) hrest]

/-- When the first `k` iterations see a successful merge and an armed
timer, the merge of iteration `k` succeeds but the timer is then
observed cleared, the loop merges entries `0..k` and then returns early:
events and connections stop at entry `k - 1`. -/
theorem tagLoop_stop_at (cfg : Config) (env : Env) :
    ∀ (entries : List PeerInfo) (i k : Nat),
    (∀ j, j < k → env.mergeResult (i + j) = .ok () ∧ env.armedAt (i + j) = true) →
    env.mergeResult (i + k) = .ok () →
    env.armedAt (i + k) = false →
    k < entries.length →
    tagLoop cfg env entries i =
      { merges := (entries.take (k + 1)).map (mergeCallOf cfg)
        events := entries.take k
        connections := (entries.take k).map (fun p => p.id)
        exitKind := .stoppedEarly } := by
  intro entries
  induction entries with
  | nil => intro i k _ _ _ hlen; cases hlen
  | cons p rest ih =>
    intro i k hpre hmk hak hlen
    cases k with
    | zero =>
      rw [Nat.add_zero] at hmk hak
      simp [tagLoop, hmk, hak]
    | succ k =>
      have h0 := hpre 0 (Nat.succ_pos k)
      rw [Nat.add_zero] at h0
      have hpre1 : ∀ j, j < k →
          env.mergeResult (i + 1 + j) = .ok () ∧ env.armedAt (i + 1 + j) = true := by
        intro j hj
        have hs := hpre (j + 1) (by omega)
        rwa [show i + (j + 1) = i + 1 + j by omega] at hs
      have hmk1 : env.mergeResult (i + 1 + k) = .ok () := by
        rwa [show i + (k + 1) = i + 1 + k by omega] at hmk
      have hak1 : env.armedAt (i + 1 + k) = false := by
        rwa [show i + (k + 1) = i + 1 + k by omega] at hak
      have hlen1 : k < rest.length := by simpa using hlen
      simp [tagLoop, h0.1, h0.2, ih (i + 1) k hpre1 hmk1 hak1 hlen1]

/-- When the first `k` iterations see a successful merge and an armed
timer and the merge of iteration `k` rejects, the loop records the merge
attempts for entries `0..k`, no event or connection for entry `k` or
later, and rethrows the merge error towards the outer catch. -/
theorem tagLoop_raise_at (cfg : Config) (env : Env) :
    ∀ (entries : List PeerInfo) (i k : Nat) (e : String),
    (∀ j, j < k → env.mergeResult (i + j) = .ok () ∧ env.armedAt (i + j) = true) →
    env.mergeResult (i + k) = .error e →
    k < entries.length →
    tagLoop cfg env entries i =
      { merges := (entries.take (k + 1)).map (mergeCallOf cfg)
        events := entries.take k
        connections := (entries.take k).map (fun p => p.id)
        exitKind := .mergeRaised e } := by
  intro entries
  induction entries with
  | nil => intro i k e _ _ hlen; cases hlen
  | cons p rest ih =>
    intro i k e hpre hmk hlen
    cases k with
    | zero =>
      rw [Nat.add_zero] at hmk
      simp [tagLoop, hmk]
    | succ k =>
      have h0 := hpre 0 (Nat.succ_pos k)
      rw [Nat.add_zero] at h0
      have hpre1 : ∀ j, j < k →
          env.mergeResult (i + 1 + j) = .ok () ∧ env.armedAt (i + 1 + j) = true := by
        intro j hj
        have hs := hpre (j + 1) (by omega)
        rwa [show i + (j + 1) = i + 1 + j by omega] at hs
      have hmk1 : env.mergeResult (i + 1 + k) = .error e := by
        rwa [show i + (k + 1) = i + 1 + k by omega] at hmk
      have hlen1 : k < rest.length := by simpa using hlen
      simp [tagLoop, h0.1, h0.2, ih (i + 1) k e hpre1 hmk1 hlen1]

/-- When the entry guard passes, the chain id matches, and contract
construction and query succeed, the run reaches the two loops: the final
list is the old list plus the resolutions, and merges, events,
connections and the possible boundary log come from the tag loop over
that cumulative list. -/
theorem run_reaches_loop (cfg : Config) (env : Env) (list0 : List PeerInfo)
    (ids : List String)
    (hnet : env.getNetwork = .ok cfg.chainId)
    (hcn : env.contractNew = .ok ())
    (hq : env.getAllPeerIds cfg.contractIndex = .ok ids) :
    discoverBootstrapPeers cfg env true list0 =
      { result := .returned
        list := list0 ++ ids.filterMap (resolveOne env)
        networkQueries := 1, contractConstructions := 1, contractQueries := 1
        merges := (tagLoop cfg env (list0 ++ ids.filterMap (resolveOne env)) 0).merges
        events := (tagLoop cfg env (list0 ++ ids.filterMap (resolveOne env)) 0).events
        connections := (tagLoop cfg env (list0 ++ ids.filterMap (resolveOne env)) 0).connections
        errorLogs := (resolveIdentifiers env ids).2 ++
          (match (tagLoop cfg env (list0 ++ ids.filterMap (resolveOne env)) 0).exitKind with
           | .mergeRaised e => [.couldNotDiscover e]
           | _ => []) } := by
  simp [discoverBootstrapPeers, hnet, hcn, hq, resolveIdentifiers_fst]

/-- A concrete configuration for evaluating the theorems (the values the
repository's test suite uses). -/
def cfgA : Config :=
  { contractAddress := "0x1234", contractIndex := "0xabcd", chainId := 1
    tagName := some "mytag", tagValue := some 42, tagTTL := some 60000 }

/-- Concrete resolved peer records. -/
def infoA : PeerInfo := { id := "peerA", multiaddrs := ["/ip4/127.0.0.1/tcp/4001"] }

def infoB : PeerInfo := { id := "peerB", multiaddrs := ["/ip4/127.0.0.1/tcp/4002"] }

def infoC : PeerInfo := { id := "peerC", multiaddrs := ["/ip4/127.0.0.1/tcp/4003"] }

/-- A peer-routing collaborator that resolves three known ids and
rejects everything else. -/
def lookupInfo (s : String) : Except String PeerInfo :=
  if s = "idA" then .ok infoA
  else if s = "idB" then .ok infoB
  else if s = "idC" then .ok infoC
  else .error "not found"

/-- An environment where every collaborator call succeeds: the provider
is on chain 1, the contract returns three identifiers, every identifier
parses to itself and resolves, merges succeed and the timer stays
armed. -/
def envHappy : Env :=
  { getNetwork := .ok 1
    contractNew := .ok ()
    getAllPeerIds := fun _ => .ok ["idA", "idB", "idC"]
    parsePeerId := fun s => .ok s
    findPeer := lookupInfo
    mergeResult := fun _ => .ok ()
    armedAt := fun _ => true }

/-- C1: if the pipeline is invoked while the timer is armed and the
provider reports a network id different from the configured chainId, the
run logs an error naming the observed and the expected id, raises a
"Wrong network" error to a direct caller, and neither constructs a
contract query handle nor issues a contract query. -/
theorem wrong_network_fails_pipeline (cfg : Config) (env : Env) (list0 : List PeerInfo)
    (observed : Int) (hnet : env.getNetwork = .ok observed)
    (hne : observed ≠ cfg.chainId) :
    (discoverBootstrapPeers cfg env true list0).result =
        .raised (wrongNetworkMsg cfg.chainId observed) ∧
    ErrorLog.wrongNetwork observed cfg.chainId ∈
        (discoverBootstrapPeers cfg env true list0).errorLogs ∧
    (discoverBootstrapPeers cfg env true list0).contractConstructions = 0 ∧
    (discoverBootstrapPeers cfg env true list0).contractQueries = 0 := by
  simp [discoverBootstrapPeers, hnet, hne]

/-- C1 witness: `wrong_network_fails_pipeline` evaluated with the
provider on chain 99 while chain 1 is configured. -/
theorem wrong_network_fails_pipeline_witness :
    (discoverBootstrapPeers cfgA { envHappy with getNetwork := .ok 99 } true []).result =
        .raised (wrongNetworkMsg cfgA.chainId 99) ∧
    ErrorLog.wrongNetwork 99 cfgA.chainId ∈
        (discoverBootstrapPeers cfgA { envHappy with getNetwork := .ok 99 } true []).errorLogs ∧
    (discoverBootstrapPeers cfgA { envHappy with getNetwork := .ok 99 } true []).contractConstructions = 0 ∧
    (discoverBootstrapPeers cfgA { envHappy with getNetwork := .ok 99 } true []).contractQueries = 0 :=
  wrong_network_fails_pipeline cfgA { envHappy with getNetwork := .ok 99 } [] 99 rfl (by decide)

/-- C2 counterexample: when the network-id query itself fails (the
`getNetwork()` promise rejects, here with "boom"), the directly-invoked
pipeline does not return normally and logs nothing — it raises the
rejection to its caller, because `await ethereum.getNetwork()` sits
outside the try/catch.  This falsifies the claim that every failure
other than wrong-network returns normally after logging. -/
theorem network_query_failure_escapes :
    (discoverBootstrapPeers cfgA { envHappy with getNetwork := .error "boom" } true []).result
        = .raised "boom" ∧
    (discoverBootstrapPeers cfgA { envHappy with getNetwork := .error "boom" } true []).errorLogs
        = [] := by
  exact ⟨rfl, rfl⟩

/-- C2 (amended): a directly-invoked pipeline run raises an error only
for the two network-identity conditions — when the network-id query
itself rejects (its rejection is re-raised unchanged) or when it reports
an id different from the configured chainId (the "Wrong network" error);
every other failure (contract construction, contract query, identifier
parse, routing, registry merge, dial) returns normally after logging. -/
theorem raises_only_network_conditions (cfg : Config) (env : Env) (armed : Bool)
    (list0 : List PeerInfo) (msg : String)
    (h : (discoverBootstrapPeers cfg env armed list0).result = .raised msg) :
    env.getNetwork = .error msg ∨
    ∃ observed, env.getNetwork = .ok observed ∧ observed ≠ cfg.chainId ∧
      msg = wrongNetworkMsg cfg.chainId observed := by
  cases armed with
  | false => simp [discoverBootstrapPeers] at h
  | true =>
    cases hn : env.getNetwork with
    | error e =>
      left
      simp [discoverBootstrapPeers, hn] at h
      rw [h]
    | ok observed =>
      by_cases hobs : observed = cfg.chainId
      · subst hobs
        cases hcn : env.contractNew with
        | error e => simp [discoverBootstrapPeers, hn, hcn] at h
        | ok u =>
          cases hq : env.getAllPeerIds cfg.contractIndex with
          | error e => simp [discoverBootstrapPeers, hn, hcn, hq] at h
          | ok ids => simp [discoverBootstrapPeers, hn, hcn, hq] at h
      · right
        refine ⟨observed, rfl, hobs, ?_⟩
        simp [discoverBootstrapPeers, hn, hobs] at h
        exact h.symm

/-- C2 witness: `raises_only_network_conditions` applied to the run
whose network-id query rejects with "boom". -/
theorem raises_only_network_conditions_witness :
    ({ envHappy with getNetwork := .error "boom" } : Env).getNetwork = .error "boom" ∨
    ∃ observed, ({ envHappy with getNetwork := .error "boom" } : Env).getNetwork = .ok observed ∧
      observed ≠ cfgA.chainId ∧ "boom" = wrongNetworkMsg cfgA.chainId observed :=
  raises_only_network_conditions cfgA { envHappy with getNetwork := .error "boom" } true [] "boom" rfl

/-- C3: when the resolution of one identifier in the contract's batch
fails (bad parse or routing rejection), the pipeline logs the offending
identifier and skips it: the surrounding identifiers are resolved and
appended as if it were absent, every downstream merge, peer event and
connection request comes from the cumulative list (which the failing
identifier never entered), and no downstream output carries the failing
identifier's peer id, provided no successfully listed peer happens to
carry that same id. -/
theorem failing_identifier_isolated (cfg : Config) (env : Env) (list0 : List PeerInfo)
    (pre post : List String) (s : String)
    (hfail : resolveOne env s = none)
    (hnet : env.getNetwork = .ok cfg.chainId)
    (hcn : env.contractNew = .ok ())
    (hq : env.getAllPeerIds cfg.contractIndex = .ok (pre ++ s :: post))
    (hm : ∀ k, env.mergeResult k = .ok ())
    (ha : ∀ k, env.armedAt k = true) :
    (discoverBootstrapPeers cfg env true list0).list =
      list0 ++ pre.filterMap (resolveOne env) ++ post.filterMap (resolveOne env) ∧
    (∃ c, ErrorLog.lookupFailed s c ∈ (discoverBootstrapPeers cfg env true list0).errorLogs) ∧
    (discoverBootstrapPeers cfg env true list0).events =
      (discoverBootstrapPeers cfg env true list0).list ∧
    (discoverBootstrapPeers cfg env true list0).merges =
      (discoverBootstrapPeers cfg env true list0).list.map (mergeCallOf cfg) ∧
    (discoverBootstrapPeers cfg env true list0).connections =
      (discoverBootstrapPeers cfg env true list0).list.map (fun p => p.id) ∧
    (∀ pid, env.parsePeerId s = .ok pid →
      (∀ p, p ∈ (discoverBootstrapPeers cfg env true list0).list → p.id ≠ pid) →
      (∀ p, p ∈ (discoverBootstrapPeers cfg env true list0).events → p.id ≠ pid) ∧
      (∀ m, m ∈ (discoverBootstrapPeers cfg env true list0).merges → m.peerId ≠ pid) ∧
      pid ∉ (discoverBootstrapPeers cfg env true list0).connections) := by
  have hrl := run_reaches_loop cfg env list0 (pre ++ s :: post) hnet hcn hq
  have hres : (pre ++ s :: post).filterMap (resolveOne env) =
      pre.filterMap (resolveOne env) ++ post.filterMap (resolveOne env) := by
    simp [List.filterMap_append, List.filterMap_cons, hfail]
  have hloop := tagLoop_all_ok cfg env
    (list0 ++ (pre ++ s :: post).filterMap (resolveOne env)) 0
    (fun j _ => ⟨hm (0 + j), ha (0 + j)⟩)
  have hlist : (discoverBootstrapPeers cfg env true list0).list =
      list0 ++ (pre ++ s :: post).filterMap (resolveOne env) := by
    rw [hrl]
  have hevents : (discoverBootstrapPeers cfg env true list0).events =
      list0 ++ (pre ++ s :: post).filterMap (resolveOne env) := by
    rw [hrl, hloop]
  have hmerges : (discoverBootstrapPeers cfg env true list0).merges =
      (list0 ++ (pre ++ s :: post).filterMap (resolveOne env)).map (mergeCallOf cfg) := by
    rw [hrl, hloop]
  have hconns : (discoverBootstrapPeers cfg env true list0).connections =
      (list0 ++ (pre ++ s :: post).filterMap (resolveOne env)).map (fun p => p.id) := by
    rw [hrl, hloop]
  have hlogs : (discoverBootstrapPeers cfg env true list0).errorLogs =
      (resolveIdentifiers env (pre ++ s :: post)).2 := by
    rw [hrl, hloop]
    simp
  refine ⟨?_, ?_, ?_, ?_, ?_, ?_⟩
  · rw [hlist, hres]
    exact (List.append_assoc _ _ _).symm
  · obtain ⟨c, hc⟩ := resolveIdentifiers_log_of_fail env s (pre ++ s :: post) (by simp) hfail
    exact ⟨c, by rw [hlogs]; exact hc⟩
  · rw [hevents, hlist]
  · rw [hmerges, hlist]
  · rw [hconns, hlist]
  · intro pid _ hno
    rw [hlist] at hno
    refine ⟨?_, ?_, ?_⟩
    · intro p hp
      rw [hevents] at hp
      exact hno p hp
    · intro m hmem
      rw [hmerges] at hmem
      obtain ⟨p, hp, hpe⟩ := List.mem_map.mp hmem
      subst hpe
      simpa [mergeCallOf] using hno p hp
    · intro hc
      rw [hconns] at hc
      obtain ⟨p, hp, hpid2⟩ := List.mem_map.mp hc
      exact hno p hp hpid2

/-- C3 witness: the contract reports identifiers `idA`, `bad`, `idC`;
`bad` parses but peer routing rejects it. -/
def envC3 : Env := { envHappy with getAllPeerIds := fun _ => .ok ["idA", "bad", "idC"] }

/-- C3 witness: `failing_identifier_isolated` evaluated on a batch whose
middle identifier fails to resolve. -/
theorem failing_identifier_isolated_witness :
    (discoverBootstrapPeers cfgA envC3 true []).list =
      [] ++ ["idA"].filterMap (resolveOne envC3) ++ ["idC"].filterMap (resolveOne envC3) ∧
    (∃ c, ErrorLog.lookupFailed "bad" c ∈ (discoverBootstrapPeers cfgA envC3 true []).errorLogs) ∧
    (discoverBootstrapPeers cfgA envC3 true []).events =
      (discoverBootstrapPeers cfgA envC3 true []).list ∧
    (discoverBootstrapPeers cfgA envC3 true []).merges =
      (discoverBootstrapPeers cfgA envC3 true []).list.map (mergeCallOf cfgA) ∧
    (discoverBootstrapPeers cfgA envC3 true []).connections =
      (discoverBootstrapPeers cfgA envC3 true []).list.map (fun p => p.id) ∧
    (∀ pid, envC3.parsePeerId "bad" = .ok pid →
      (∀ p, p ∈ (discoverBootstrapPeers cfgA envC3 true []).list → p.id ≠ pid) →
      (∀ p, p ∈ (discoverBootstrapPeers cfgA envC3 true []).events → p.id ≠ pid) ∧
      (∀ m, m ∈ (discoverBootstrapPeers cfgA envC3 true []).merges → m.peerId ≠ pid) ∧
      pid ∉ (discoverBootstrapPeers cfgA envC3 true []).connections) :=
  failing_identifier_isolated cfgA envC3 [] ["idA"] ["idC"] "bad" rfl rfl rfl rfl
    (fun _ => rfl) (fun _ => rfl)

/-- C4 counterexample environment: the contract query succeeds with two
identifiers that both resolve, no stop() happens (every timer read is
true), but the first registry merge rejects. -/
def envC4 : Env :=
  { envHappy with
    getAllPeerIds := fun _ => .ok ["idA", "idB"]
    mergeResult := fun k => if k = 0 then .error "merge boom" else .ok () }

/-- C4 counterexample: a run whose contract query succeeds and that no
stop() interrupts, yet the tag/announce/connect loop does not process
every entry of discoveredPeers: the list has two entries but only one
merge call is issued and no peer event or connection request at all,
because the first merge rejected and the outer boundary aborted the
loop.  This falsifies the claim as universally stated. -/
theorem merge_failure_stops_loop :
    envC4.getAllPeerIds cfgA.contractIndex = .ok ["idA", "idB"] ∧
    envC4.armedAt 0 = true ∧ envC4.armedAt 1 = true ∧
    (discoverBootstrapPeers cfgA envC4 true []).contractQueries = 1 ∧
    (discoverBootstrapPeers cfgA envC4 true []).list.length = 2 ∧
    (discoverBootstrapPeers cfgA envC4 true []).merges.length = 1 ∧
    (discoverBootstrapPeers cfgA envC4 true []).events = [] ∧
    (discoverBootstrapPeers cfgA envC4 true []).connections = [] :=
  ⟨rfl, rfl, rfl, rfl, rfl, rfl, rfl, rfl⟩

/-- C4 (amended): for every pipeline run whose contract query succeeds,
that is not interrupted by stop() and in which every registry merge
succeeds, the tag/announce/connect loop processes every entry of the
cumulative discoveredPeers sequence — entries appended by earlier runs
included — issuing per entry one merge call carrying the configured tag,
one peer event and one connection request, in order. -/
theorem loop_processes_cumulative_list (cfg : Config) (env : Env) (list0 : List PeerInfo)
    (ids : List String)
    (hnet : env.getNetwork = .ok cfg.chainId)
    (hcn : env.contractNew = .ok ())
    (hq : env.getAllPeerIds cfg.contractIndex = .ok ids)
    (hm : ∀ k, env.mergeResult k = .ok ())
    (ha : ∀ k, env.armedAt k = true) :
    (discoverBootstrapPeers cfg env true list0).result = .returned ∧
    (discoverBootstrapPeers cfg env true list0).merges =
      (list0 ++ ids.filterMap (resolveOne env)).map (mergeCallOf cfg) ∧
    (discoverBootstrapPeers cfg env true list0).events =
      list0 ++ ids.filterMap (resolveOne env) ∧
    (discoverBootstrapPeers cfg env true list0).connections =
      (list0 ++ ids.filterMap (resolveOne env)).map (fun p => p.id) := by
  have hrl := run_reaches_loop cfg env list0 ids hnet hcn hq
  have hloop := tagLoop_all_ok cfg env (list0 ++ ids.filterMap (resolveOne env)) 0
    (fun j _ => ⟨hm (0 + j), ha (0 + j)⟩)
  rw [hrl]
  simp [hloop]

/-- C4 witness: a first run (empty prior list) whose contract returns
three identifiers that each resolve: exactly three merge calls carrying
the configured tag value and ttl and the peer's addresses, three peer
events with those PeerInfo values in resolution order, and three
connection requests. -/
theorem loop_processes_cumulative_list_witness :
    (discoverBootstrapPeers cfgA envHappy true []).result = .returned ∧
    (discoverBootstrapPeers cfgA envHappy true []).merges =
      [{ peerId := "peerA", tagName := "mytag", tagValue := 42, tagTTL := some 60000
         multiaddrs := ["/ip4/127.0.0.1/tcp/4001"] },
       { peerId := "peerB", tagName := "mytag", tagValue := 42, tagTTL := some 60000
         multiaddrs := ["/ip4/127.0.0.1/tcp/4002"] },
       { peerId := "peerC", tagName := "mytag", tagValue := 42, tagTTL := some 60000
         multiaddrs := ["/ip4/127.0.0.1/tcp/4003"] }] ∧
    (discoverBootstrapPeers cfgA envHappy true []).events = [infoA, infoB, infoC] ∧
    (discoverBootstrapPeers cfgA envHappy true []).connections = ["peerA", "peerB", "peerC"] := by
  obtain ⟨h1, h2, h3, h4⟩ :=
    loop_processes_cumulative_list cfgA envHappy [] ["idA", "idB", "idC"] rfl rfl rfl
      (fun _ => rfl) (fun _ => rfl)
  refine ⟨h1, ?_, ?_, ?_⟩
  · rw [h2]; rfl
  · rw [h3]; rfl
  · rw [h4]; rfl

/-- C5: start() is idempotent while armed — a second start() in the
armed state changes nothing at all (no second timer registration, the
pending deadline untouched); after start() the instance reports started,
and from a fresh instance advancing time past the configured delay after
a double start() triggers exactly one pipeline execution. -/
theorem start_idempotent_while_armed (timeout now : Nat) (s : InstanceState)
    (h : isStarted s = true) :
    start timeout now s = s ∧
    isStarted (start timeout now initialState) = true ∧
    firingsBy (now + timeout) (start timeout now (start timeout now initialState)) = 1 := by
  refine ⟨?_, ?_, ?_⟩
  · simp [start, h]
  · simp [start, isStarted, initialState]
  · simp [start, isStarted, initialState, firingsBy]

/-- C5 witness: `start_idempotent_while_armed` with delay 5 at time 0,
applied to the armed state produced by one start(). -/
theorem start_idempotent_while_armed_witness :
    start 5 0 (start 5 0 initialState) = start 5 0 initialState ∧
    isStarted (start 5 0 initialState) = true ∧
    firingsBy (0 + 5) (start 5 0 (start 5 0 initialState)) = 1 :=
  start_idempotent_while_armed 5 0 (start 5 0 initialState) (by decide)

/-- C6: stop() clears the timer handle (isStarted becomes false) and
cancels the pending registration, and changes nothing else — the
discovered-peer list and the handle counter are untouched; it is a no-op
on a never-started instance, idempotent, and a stop() before the delay
elapses leaves no pending firing, so no pipeline execution occurs.  It
is a total function: it never errors. -/
theorem stop_clears_timer_only (s : InstanceState) (timeout now t : Nat) :
    isStarted (stop s) = false ∧
    (stop s).list = s.list ∧
    (stop s).nextHandle = s.nextHandle ∧
    stop (stop s) = stop s ∧
    stop initialState = initialState ∧
    firingsBy t (stop (start timeout now initialState)) = 0 := by
  refine ⟨?_, ?_, ?_, ?_, ?_, ?_⟩
  · cases hs : s.timer <;> simp [stop, isStarted, hs]
  · cases hs : s.timer <;> simp [stop, hs]
  · cases hs : s.timer <;> simp [stop, hs]
  · cases hs : s.timer <;> simp [stop, hs]
  · simp [stop, initialState]
  · simp [start, stop, isStarted, initialState, firingsBy]

/-- C7: after stop() has cleared the timer the pipeline never announces
or connects: (a) an invocation that finds the timer unarmed at entry
returns immediately — no network-id query, no list mutation, no merge,
no event, no connection, no error log; (b) if the timer read of loop
iteration k comes back cleared (stop() raced the loop), no peer event is
emitted and no connection is requested for entry k or any later entry —
events and connections stop at entry k - 1. -/
theorem stop_guard_silences_pipeline (cfg : Config) (env : Env) (list0 : List PeerInfo)
    (ids : List String) (k : Nat)
    (hnet : env.getNetwork = .ok cfg.chainId)
    (hcn : env.contractNew = .ok ())
    (hq : env.getAllPeerIds cfg.contractIndex = .ok ids)
    (hpre : ∀ j, j < k → env.mergeResult j = .ok () ∧ env.armedAt j = true)
    (hmk : env.mergeResult k = .ok ())
    (hak : env.armedAt k = false)
    (hlen : k < (list0 ++ ids.filterMap (resolveOne env)).length) :
    ((discoverBootstrapPeers cfg env false list0).result = .returned ∧
     (discoverBootstrapPeers cfg env false list0).list = list0 ∧
     (discoverBootstrapPeers cfg env false list0).networkQueries = 0 ∧
     (discoverBootstrapPeers cfg env false list0).contractConstructions = 0 ∧
     (discoverBootstrapPeers cfg env false list0).contractQueries = 0 ∧
     (discoverBootstrapPeers cfg env false list0).merges = [] ∧
     (discoverBootstrapPeers cfg env false list0).events = [] ∧
     (discoverBootstrapPeers cfg env false list0).connections = [] ∧
     (discoverBootstrapPeers cfg env false list0).errorLogs = []) ∧
    (discoverBootstrapPeers cfg env true list0).result = .returned ∧
    (discoverBootstrapPeers cfg env true list0).events =
      (list0 ++ ids.filterMap (resolveOne env)).take k ∧
    (discoverBootstrapPeers cfg env true list0).connections =
      ((list0 ++ ids.filterMap (resolveOne env)).take k).map (fun p => p.id) := by
  have hrl := run_reaches_loop cfg env list0 ids hnet hcn hq
  have hloop := tagLoop_stop_at cfg env (list0 ++ ids.filterMap (resolveOne env)) 0 k
    (fun j hj => by simpa using hpre j hj) (by simpa using hmk) (by simpa using hak) hlen
  refine ⟨?_, ?_, ?_, ?_⟩
  · exact ⟨rfl, rfl, rfl, rfl, rfl, rfl, rfl, rfl, rfl⟩
  · rw [hrl]
  · rw [hrl, hloop]
  · rw [hrl, hloop]

/-- C7 witness environment: the timer read of loop iteration 1 comes
back cleared — stop() raced the loop after the first entry was
announced. -/
def envC7 : Env := { envHappy with armedAt := fun k => decide (k = 0) }

/-- C7 witness: `stop_guard_silences_pipeline` on a three-peer batch
with the timer cleared before iteration 1: only the first entry is
announced and dialled. -/
theorem stop_guard_silences_pipeline_witness :
    ((discoverBootstrapPeers cfgA envC7 false []).result = .returned ∧
     (discoverBootstrapPeers cfgA envC7 false []).list = [] ∧
     (discoverBootstrapPeers cfgA envC7 false []).networkQueries = 0 ∧
     (discoverBootstrapPeers cfgA envC7 false []).contractConstructions = 0 ∧
     (discoverBootstrapPeers cfgA envC7 false []).contractQueries = 0 ∧
     (discoverBootstrapPeers cfgA envC7 false []).merges = [] ∧
     (discoverBootstrapPeers cfgA envC7 false []).events = [] ∧
     (discoverBootstrapPeers cfgA envC7 false []).connections = [] ∧
     (discoverBootstrapPeers cfgA envC7 false []).errorLogs = []) ∧
    (discoverBootstrapPeers cfgA envC7 true []).result = .returned ∧
    (discoverBootstrapPeers cfgA envC7 true []).events =
      (([] : List PeerInfo) ++ ["idA", "idB", "idC"].filterMap (resolveOne envC7)).take 1 ∧
    (discoverBootstrapPeers cfgA envC7 true []).connections =
      ((([] : List PeerInfo) ++ ["idA", "idB", "idC"].filterMap (resolveOne envC7)).take 1).map
        (fun p => p.id) :=
  stop_guard_silences_pipeline cfgA envC7 [] ["idA", "idB", "idC"] 1 rfl rfl rfl
    (fun j hj => by
      have hj0 : j = 0 := by omega
      subst hj0
      exact ⟨rfl, rfl⟩)
    rfl rfl (by decide)

/-- C8: every error from contract construction onward is caught by the
single outer boundary, logged as "Could not discover bootstrap peers"
with the underlying cause, and swallowed — the run returns normally.
Three cases: (a) contract construction rejects (no query, no downstream
effect); (b) the contract query rejects (no downstream effect); (c) a
registry merge of loop iteration k rejects, which aborts the remainder
of the tagging loop — merge calls stop at entry k, events and
connections at entry k - 1, and the run still returns normally with the
boundary log recorded. -/
theorem outer_boundary_swallows (cfg : Config) (env : Env) (list0 : List PeerInfo)
    (hnet : env.getNetwork = .ok cfg.chainId) :
    (∀ e, env.contractNew = .error e →
      discoverBootstrapPeers cfg env true list0 =
        { result := .returned, list := list0, networkQueries := 1
          contractConstructions := 1, contractQueries := 0
          merges := [], events := [], connections := []
          errorLogs := [.couldNotDiscover e] }) ∧
    (∀ e, env.contractNew = .ok () → env.getAllPeerIds cfg.contractIndex = .error e →
      discoverBootstrapPeers cfg env true list0 =
        { result := .returned, list := list0, networkQueries := 1
          contractConstructions := 1, contractQueries := 1
          merges := [], events := [], connections := []
          errorLogs := [.couldNotDiscover e] }) ∧
    (∀ e ids k, env.contractNew = .ok () →
      env.getAllPeerIds cfg.contractIndex = .ok ids →
      (∀ j, j < k → env.mergeResult j = .ok () ∧ env.armedAt j = true) →
      env.mergeResult k = .error e →
      k < (list0 ++ ids.filterMap (resolveOne env)).length →
      (discoverBootstrapPeers cfg env true list0).result = .returned ∧
      ErrorLog.couldNotDiscover e ∈ (discoverBootstrapPeers cfg env true list0).errorLogs ∧
      (discoverBootstrapPeers cfg env true list0).merges =
        ((list0 ++ ids.filterMap (resolveOne env)).take (k + 1)).map (mergeCallOf cfg) ∧
      (discoverBootstrapPeers cfg env true list0).events =
        (list0 ++ ids.filterMap (resolveOne env)).take k ∧
      (discoverBootstrapPeers cfg env true list0).connections =
        ((list0 ++ ids.filterMap (resolveOne env)).take k).map (fun p => p.id)) := by
  refine ⟨?_, ?_, ?_⟩
  · intro e hcn
    simp [discoverBootstrapPeers, hnet, hcn]
  · intro e hcn hq
    simp [discoverBootstrapPeers, hnet, hcn, hq]
  · intro e ids k hcn hq hpre hmk hlen
    have hrl := run_reaches_loop cfg env list0 ids hnet hcn hq
    have hloop := tagLoop_raise_at cfg env (list0 ++ ids.filterMap (resolveOne env)) 0 k e
      (fun j hj => by simpa using hpre j hj) (by simpa using hmk) hlen
    refine ⟨?_, ?_, ?_, ?_, ?_⟩
    · rw [hrl]
    · rw [hrl, hloop]
      simp
    · rw [hrl, hloop]
    · rw [hrl, hloop]
    · rw [hrl, hloop]

/-- C8 witness environment for the construction-failure and
query-failure cases. -/
def envC8a : Env := { envHappy with contractNew := .error "ctor boom" }

/-- C8 witness: `outer_boundary_swallows` evaluated on a construction
failure, a query failure, and a merge failure at the first loop
iteration. -/
theorem outer_boundary_swallows_witness :
    (discoverBootstrapPeers cfgA envC8a true [] =
      { result := .returned, list := [], networkQueries := 1
        contractConstructions := 1, contractQueries := 0
        merges := [], events := [], connections := []
        errorLogs := [.couldNotDiscover "ctor boom"] }) ∧
    (discoverBootstrapPeers cfgA { envHappy with getAllPeerIds := fun _ => .error "query boom" } true [] =
      { result := .returned, list := [], networkQueries := 1
        contractConstructions := 1, contractQueries := 1
        merges := [], events := [], connections := []
        errorLogs := [.couldNotDiscover "query boom"] }) ∧
    (discoverBootstrapPeers cfgA envC4 true []).result = .returned ∧
    ErrorLog.couldNotDiscover "merge boom" ∈ (discoverBootstrapPeers cfgA envC4 true []).errorLogs ∧
    (discoverBootstrapPeers cfgA envC4 true []).merges =
      ((([] : List PeerInfo) ++ ["idA", "idB"].filterMap (resolveOne envC4)).take 1).map
        (mergeCallOf cfgA) ∧
    (discoverBootstrapPeers cfgA envC4 true []).events =
      (([] : List PeerInfo) ++ ["idA", "idB"].filterMap (resolveOne envC4)).take 0 ∧
    (discoverBootstrapPeers cfgA envC4 true []).connections =
      ((([] : List PeerInfo) ++ ["idA", "idB"].filterMap (resolveOne envC4)).take 0).map
        (fun p => p.id) := by
  obtain ⟨ha, hb, hc⟩ := outer_boundary_swallows cfgA envC8a [] rfl
  obtain ⟨ha2, hb2, hc2⟩ :=
    outer_boundary_swallows cfgA { envHappy with getAllPeerIds := fun _ => .error "query boom" } [] rfl
  obtain ⟨ha3, hb3, hc3⟩ := outer_boundary_swallows cfgA envC4 [] rfl
  obtain ⟨m1, m2, m3, m4, m5⟩ :=
    hc3 "merge boom" ["idA", "idB"] 0 rfl rfl (fun j hj => absurd hj (by omega)) rfl (by decide)
  exact ⟨ha "ctor boom" rfl, hb2 "query boom" rfl rfl, m1, m2, m3, m4, m5⟩

/-- C9: the constructor validates its configuration in a fixed order,
throwing synchronously with a distinct message per failure and touching
no network: missing contractAddress, then missing contractIndex, then
missing chainId, then missing provider; a non-null provider that neither
exposes getNetwork nor is a request-style wallet provider in a
browser-like context fails with a message beginning "Invalid provider";
a provider exposing getNetwork is passed through unchanged. -/
theorem constructor_validation (opts : RawInit) (w : Bool) :
    (opts.contractAddress = none →
      constructEVMBootstrap opts w = .error "EVMBootstrap requires a contract address") ∧
    (∀ a, opts.contractAddress = some a → opts.contractIndex = none →
      constructEVMBootstrap opts w = .error "EVMBootstrap requires a contract index") ∧
    (∀ a i, opts.contractAddress = some a → opts.contractIndex = some i →
      opts.chainId = none →
      constructEVMBootstrap opts w = .error "EVMBootstrap requires a chain id") ∧
    (∀ a i c, opts.contractAddress = some a → opts.contractIndex = some i →
      opts.chainId = some c → opts.ethereum = none →
      constructEVMBootstrap opts w = .error "EVMBootstrap requires an ethereum provider") ∧
    (∀ a i c p, opts.contractAddress = some a → opts.contractIndex = some i →
      opts.chainId = some c → opts.ethereum = some p →
      p.hasGetNetwork = false → (w && p.hasRequest) = false →
      ∃ rest, constructEVMBootstrap opts w = .error ("Invalid provider" ++ rest)) ∧
    (∀ a i c p, opts.contractAddress = some a → opts.contractIndex = some i →
      opts.chainId = some c → opts.ethereum = some p → p.hasGetNetwork = true →
      ∃ inst, constructEVMBootstrap opts w = .ok inst ∧
        inst.provider = .native p) ∧
    ("EVMBootstrap requires a contract address" ≠ "EVMBootstrap requires a contract index" ∧
     "EVMBootstrap requires a contract address" ≠ "EVMBootstrap requires a chain id" ∧
     "EVMBootstrap requires a contract address" ≠ "EVMBootstrap requires an ethereum provider" ∧
     "EVMBootstrap requires a contract index" ≠ "EVMBootstrap requires a chain id" ∧
     "EVMBootstrap requires a contract index" ≠ "EVMBootstrap requires an ethereum provider" ∧
     "EVMBootstrap requires a chain id" ≠ "EVMBootstrap requires an ethereum provider") := by
  refine ⟨?_, ?_, ?_, ?_, ?_, ?_, by decide⟩
  · intro h
    simp [constructEVMBootstrap, h]
  · intro a ha h
    simp [constructEVMBootstrap, ha, h]
  · intro a i ha hi h
    simp [constructEVMBootstrap, ha, hi, h]
  · intro a i c ha hi hc h
    simp [constructEVMBootstrap, ha, hi, hc, h]
  · intro a i c p ha hi hc hp hg hr
    refine ⟨": must be an ethers Provider or EIP-1193 provider", ?_⟩
    have hmsg : ("Invalid provider" ++ ": must be an ethers Provider or EIP-1193 provider" : String)
        = "Invalid provider: must be an ethers Provider or EIP-1193 provider" := by decide
    rw [hmsg]
    simp [constructEVMBootstrap, toEthersProvider, ha, hi, hc, hp, hg, hr]
  · intro a i c p ha hi hc hp hg
    refine ⟨{ config := { contractAddress := a, contractIndex := i, chainId := c
                          tagName := opts.tagName, tagValue := opts.tagValue
                          tagTTL := opts.tagTTL }
              provider := .native p
              timeout := opts.timeout.getD DEFAULT_BOOTSTRAP_DISCOVERY_TIMEOUT
              list := [] }, ?_, rfl⟩
    simp [constructEVMBootstrap, toEthersProvider, ha, hi, hc, hp, hg]

/-- C9 witness options: all required fields present, provider exposing
`getNetwork`. -/
def optsGood : RawInit :=
  { contractAddress := some "0x1234", contractIndex := some "0xabcd"
    chainId := some 1
    ethereum := some { hasGetNetwork := true, hasRequest := false, tag := 7 }
    timeout := some 5000, tagName := none, tagValue := none, tagTTL := none }

/-- C9 witness: `constructor_validation` evaluated on each failing
option record and on a valid one. -/
theorem constructor_validation_witness :
    constructEVMBootstrap { optsGood with contractAddress := none } true =
      .error "EVMBootstrap requires a contract address" ∧
    constructEVMBootstrap { optsGood with contractIndex := none } true =
      .error "EVMBootstrap requires a contract index" ∧
    constructEVMBootstrap { optsGood with chainId := none } true =
      .error "EVMBootstrap requires a chain id" ∧
    constructEVMBootstrap { optsGood with ethereum := none } true =
      .error "EVMBootstrap requires an ethereum provider" ∧
    (∃ rest, constructEVMBootstrap
        { optsGood with ethereum := some { hasGetNetwork := false, hasRequest := false, tag := 3 } }
        false = .error ("Invalid provider" ++ rest)) ∧
    (∃ inst, constructEVMBootstrap optsGood true = .ok inst ∧
      inst.provider = .native { hasGetNetwork := true, hasRequest := false, tag := 7 }) := by
  obtain ⟨h1, _, _, _, _, _, _⟩ :=
    constructor_validation { optsGood with contractAddress := none } true
  obtain ⟨_, h2, _, _, _, _, _⟩ :=
    constructor_validation { optsGood with contractIndex := none } true
  obtain ⟨_, _, h3, _, _, _, _⟩ :=
    constructor_validation { optsGood with chainId := none } true
  obtain ⟨_, _, _, h4, _, _, _⟩ :=
    constructor_validation { optsGood with ethereum := none } true
  obtain ⟨_, _, _, _, h5, _, _⟩ :=
    constructor_validation
      { optsGood with ethereum := some { hasGetNetwork := false, hasRequest := false, tag := 3 } }
      false
  obtain ⟨_, _, _, _, _, h6, _⟩ := constructor_validation optsGood true
  exact ⟨h1 rfl, h2 "0x1234" rfl rfl, h3 "0x1234" "0xabcd" rfl rfl rfl,
    h4 "0x1234" "0xabcd" 1 rfl rfl rfl rfl,
    h5 "0x1234" "0xabcd" 1 { hasGetNetwork := false, hasRequest := false, tag := 3 }
      rfl rfl rfl rfl rfl rfl,
    h6 "0x1234" "0xabcd" 1 { hasGetNetwork := true, hasRequest := false, tag := 7 }
      rfl rfl rfl rfl rfl⟩

/-- C10: in every loop iteration the registry merge is awaited before
the stop-guard is consulted, so when the timer read of iteration k comes
back cleared (after a successful merge), entry k has been merged into
the registry but receives no peer event and no connection request: there
is a tagged-but-unannounced peer. -/
theorem merge_precedes_guard (cfg : Config) (env : Env) (list0 : List PeerInfo)
    (ids : List String) (k : Nat)
    (hnet : env.getNetwork = .ok cfg.chainId)
    (hcn : env.contractNew = .ok ())
    (hq : env.getAllPeerIds cfg.contractIndex = .ok ids)
    (hpre : ∀ j, j < k → env.mergeResult j = .ok () ∧ env.armedAt j = true)
    (hmk : env.mergeResult k = .ok ())
    (hak : env.armedAt k = false)
    (hlen : k < (list0 ++ ids.filterMap (resolveOne env)).length)
    (hfresh : ∀ p ∈ (list0 ++ ids.filterMap (resolveOne env)).take k,
      p.id ≠ ((list0 ++ ids.filterMap (resolveOne env)).get ⟨k, hlen⟩).id) :
    (discoverBootstrapPeers cfg env true list0).merges =
      ((list0 ++ ids.filterMap (resolveOne env)).take (k + 1)).map (mergeCallOf cfg) ∧
    (discoverBootstrapPeers cfg env true list0).events =
      (list0 ++ ids.filterMap (resolveOne env)).take k ∧
    (∃ p, mergeCallOf cfg p ∈ (discoverBootstrapPeers cfg env true list0).merges ∧
      p ∉ (discoverBootstrapPeers cfg env true list0).events ∧
      p.id ∉ (discoverBootstrapPeers cfg env true list0).connections) := by
  have hrl := run_reaches_loop cfg env list0 ids hnet hcn hq
  have hloop := tagLoop_stop_at cfg env (list0 ++ ids.filterMap (resolveOne env)) 0 k
    (fun j hj => by simpa using hpre j hj) (by simpa using hmk) (by simpa using hak) hlen
  have hmergesEq : (discoverBootstrapPeers cfg env true list0).merges =
      ((list0 ++ ids.filterMap (resolveOne env)).take (k + 1)).map (mergeCallOf cfg) := by
    rw [hrl, hloop]
  have heventsEq : (discoverBootstrapPeers cfg env true list0).events =
      (list0 ++ ids.filterMap (resolveOne env)).take k := by
    rw [hrl, hloop]
  have hconnsEq : (discoverBootstrapPeers cfg env true list0).connections =
      ((list0 ++ ids.filterMap (resolveOne env)).take k).map (fun p => p.id) := by
    rw [hrl, hloop]
  refine ⟨hmergesEq, heventsEq, (list0 ++ ids.filterMap (resolveOne env)).get ⟨k, hlen⟩, ?_, ?_, ?_⟩
  · rw [hmergesEq]
    refine List.mem_map_of_mem (mergeCallOf cfg) ?_
    rw [List.take_succ]
    refine List.mem_append.mpr (Or.inr ?_)
    rw [List.getElem?_eq_getElem hlen]
    simp [List.get_eq_getElem]
  · rw [heventsEq]
    intro hmem
    exact hfresh _ hmem rfl
  · rw [hconnsEq]
    intro hmem
    obtain ⟨q, hq2, hid⟩ := List.mem_map.mp hmem
    exact hfresh q hq2 hid

/-- C10 witness: `merge_precedes_guard` on a three-peer batch with the
timer cleared at loop iteration 1: peerB is merged but never announced
or dialled. -/
theorem merge_precedes_guard_witness :
    (discoverBootstrapPeers cfgA envC7 true []).merges =
      ((([] : List PeerInfo) ++ ["idA", "idB", "idC"].filterMap (resolveOne envC7)).take 2).map
        (mergeCallOf cfgA) ∧
    (discoverBootstrapPeers cfgA envC7 true []).events =
      (([] : List PeerInfo) ++ ["idA", "idB", "idC"].filterMap (resolveOne envC7)).take 1 ∧
    (∃ p, mergeCallOf cfgA p ∈ (discoverBootstrapPeers cfgA envC7 true []).merges ∧
      p ∉ (discoverBootstrapPeers cfgA envC7 true []).events ∧
      p.id ∉ (discoverBootstrapPeers cfgA envC7 true []).connections) :=
  merge_precedes_guard cfgA envC7 [] ["idA", "idB", "idC"] 1 rfl rfl rfl
    (fun j hj => by
      have hj0 : j = 0 := by omega
      subst hj0
      exact ⟨rfl, rfl⟩)
    rfl rfl (by decide) (by decide)

end EvmBootstrap
